import Mathlib

/-!
Shallow embedding of the DPPify backend (src/main.py and
src/backend/main_agent.py): the prompt selector, the metadata generation
step, the orchestrator run method, the tmpfiles.org uploader and the
generate_dpp endpoint handler. External collaborators (the LLM call, the
PDF renderer create_dpp_pdf, the HTTP transport of the upload POST) are
explicit oracle parameters, and the local file system is passed as an
association list from path to content.
-/

set_option autoImplicit false

namespace DPPify

/-- Does the pattern occur at the head of the character list? -/
def matchesHere : List Char → List Char → Bool
  | [], _ => true
  | _ :: _, [] => false
  | p :: ps, c :: cs => p == c && matchesHere ps cs

/-- Scanning pass of Python str.replace over the input characters: at each
position, if the (nonempty) pattern occurs there, emit the replacement and
skip past the match; otherwise keep the character and move on. The fuel
argument only bounds the recursion; fuel equal to the length of the input
is always enough, since every step consumes at least one character. -/
def replaceAux (pat rep : List Char) : Nat → List Char → List Char
  | _, [] => []
  | 0, l => l
  | fuel + 1, c :: rest =>
    if !pat.isEmpty && matchesHere pat (c :: rest) then
      rep ++ replaceAux pat rep fuel (List.drop (pat.length - 1) rest)
    else
      c :: replaceAux pat rep fuel rest

/-- Python s.replace(pat, rep): every non-overlapping occurrence of pat in
s is replaced by rep, scanning left to right. (Each call site in this code
base passes a nonempty literal pattern, so the empty-pattern corner of the
Python function is irrelevant here.) -/
def pythonReplace (s pat rep : String) : String :=
  (replaceAux pat.toList rep.toList s.toList.length s.toList).asString

/-- Python str.lower; every input this code base normalizes is ASCII. -/
def pyLower (s : String) : String :=
  (s.toList.map Char.toLower).asString

/-- The local file system: an association list from path to file content. -/
abbrev FS := List (String × String)

/-- Content of the file at path p, when it exists. -/
def FS.read : FS → String → Option String
  | [], _ => none
  | e :: t, p => if e.1 == p then some e.2 else FS.read t p

/-- os.path.exists. -/
def FS.pathExists (fs : FS) (p : String) : Bool :=
  (FS.read fs p).isSome

/-- os.remove. -/
def FS.remove : FS → String → FS
  | [], _ => []
  | e :: t, p => if e.1 == p then FS.remove t p else e :: FS.remove t p

/-- Creating a file at path p with content c. -/
def FS.write (fs : FS) (p c : String) : FS :=
  (p, c) :: fs

/-- Python exceptions the pipeline raises or handles. The constructor
other stands for any exception class the code does not name explicitly
(carrying the class name and the message); http is fastapi.HTTPException. -/
inductive PyExc where
  | fileNotFound (msg : String)
  | connection (msg : String)
  | value (msg : String)
  | runtime (msg : String)
  | http (status : Nat) (detail : String)
  | other (cls : String) (msg : String)
deriving DecidableEq, Repr

/-- Python str(e) for the exceptions above. -/
def PyExc.str : PyExc → String
  | .fileNotFound m => m
  | .connection m => m
  | .value m => m
  | .runtime m => m
  | .http s d => toString s ++ ": " ++ d
  | .other _ m => m

/-- pydantic model Question in main_agent.py. -/
structure Question where
  text : String
deriving DecidableEq, Repr

/-- pydantic model DPP in main_agent.py (DynamicDPP only changes a field
description string, not the shape). -/
structure DPP where
  topic : String
  language : String
  instructions : String
  questions : List Question
deriving DecidableEq, Repr

/-- Outcome of the external agent.run LLM call: an exception raised during
the call, or the returned .content, which is either None or a parsed DPP. -/
inductive LLMOutcome where
  | err (e : PyExc)
  | ok (resp : Option DPP)
deriving DecidableEq, Repr

/-- Outcome of the external create_dpp_pdf renderer: an exception, or the
returned path together with the bytes written there. -/
inductive RenderOutcome where
  | err (e : PyExc)
  | ok (path : String) (content : String)
deriving DecidableEq, Repr

/-- Observable effects of a pipeline execution: the agent.run network call
to the LLM, and the create_dpp_pdf render call with its arguments. -/
inductive Event where
  | networkCall
  | renderCall (topic : String) (questions : List String) (instr : String) (totalQ : Int)
deriving DecidableEq, Repr

/-- The three prompt template paths of DPPify.PROMPT_MAP. -/
def only_mcq_prompt_path : String := "backend/prompts/only_mcq_creator_system_prompt.txt"

/-- See only_mcq_prompt_path. -/
def only_saq_prompt_path : String := "backend/prompts/only_saq_creator_system_prompt.txt"

/-- See only_mcq_prompt_path. -/
def both_prompt_path : String := "backend/prompts/both_questions_creater_system_prompt.txt"

/-- DPPify.PROMPT_MAP, the dict from normalized question-type label to
prompt file path. -/
def PROMPT_MAP : List (String × String) :=
  [("onlymcq", only_mcq_prompt_path),
   ("onlysaq", only_saq_prompt_path),
   ("both", both_prompt_path)]

/-- question_type.lower().replace(" ", "") in _get_system_prompt. -/
def normalized_q_type (question_type : String) : String :=
  pythonReplace (pyLower question_type) " " ""

/-- PROMPT_MAP.get(normalized_q_type, PROMPT_MAP["both"]) in
_get_system_prompt; the default PROMPT_MAP["both"] is both_prompt_path. -/
def selected_prompt_path (question_type : String) : String :=
  (PROMPT_MAP.lookup (normalized_q_type question_type)).getD both_prompt_path

/-- DPPify._get_system_prompt in main_agent.py: select the prompt file for
the question type and read it; a missing file is re-raised as a
FileNotFoundError whose message cites the path. -/
def _get_system_prompt (fs : FS) (question_type : String) : Except PyExc String :=
  let prompt_path := selected_prompt_path question_type
  match FS.read fs prompt_path with
  | some content => .ok content
  | none => .error (.fileNotFound ("Could not find the required prompt file: " ++ prompt_path))

/-- The dict returned by DPPify._generate_dpp_metadata. -/
structure Metadata where
  topic_name : String
  dpp_language : String
  instruction : String
  questions : List String
deriving DecidableEq, Repr

/-- DPPify._generate_dpp_metadata in main_agent.py, with the agent.run
call replaced by the llm oracle; a networkCall event is emitted exactly
when the agent call is attempted. Any exception from the call becomes a
ConnectionError carrying the original message; a None response or an
empty question list becomes a ValueError; otherwise the question texts
are extracted in order. -/
def _generate_dpp_metadata (fs : FS) (llm : LLMOutcome) (topic_name : String)
    (total_questions : Int)
    (question_type difficulty_level api_key language additional_instruction : String) :
    Except PyExc Metadata × List Event :=
  match _get_system_prompt fs question_type with
  | .error e => (.error e, [])
  | .ok _system_prompt =>
    match llm with
    | .err e =>
      (.error (.connection ("Failed to get a response from the AI model. Please check your API key and network connection. Details: " ++ PyExc.str e)), [.networkCall])
    | .ok none =>
      (.error (.value "The AI model failed to generate questions. Please try again with a different topic or settings."), [.networkCall])
    | .ok (some response) =>
      if response.questions.isEmpty then
        (.error (.value "The AI model failed to generate questions. Please try again with a different topic or settings."), [.networkCall])
      else
        (.ok { topic_name := response.topic
             , dpp_language := response.language
             , instruction := response.instructions
             , questions := response.questions.map Question.text }, [.networkCall])

/-- The except clauses at the end of DPPify.run: FileNotFoundError,
ConnectionError and ValueError are re-raised unchanged; any other
exception is wrapped in a RuntimeError carrying the original message. -/
def runTranslate : PyExc → PyExc
  | .fileNotFound m => .fileNotFound m
  | .connection m => .connection m
  | .value m => .value m
  | e => .runtime ("An unexpected error occurred: " ++ e.str)

/-- DPPify.run in main_agent.py: generate the metadata, then call
create_dpp_pdf (the renderOut oracle) with the response topic, the
extracted questions, the response instructions and the caller-requested
total_q. Returns the result, the file system after the call and the
event trace. -/
def run (fs : FS) (llm : LLMOutcome) (renderOut : RenderOutcome)
    (topic_name question_type : String) (total_q : Int)
    (level api_key dpp_language additional_instruction : String) :
    Except PyExc String × FS × List Event :=
  let gen := _generate_dpp_metadata fs llm topic_name total_q question_type level api_key dpp_language additional_instruction
  match gen.1 with
  | .error e => (.error (runTranslate e), fs, gen.2)
  | .ok md =>
    let tr := gen.2 ++ [Event.renderCall md.topic_name md.questions md.instruction total_q]
    match renderOut with
    | .err e => (.error (runTranslate e), fs, tr)
    | .ok path content => (.ok path, FS.write fs path content, tr)

/-- A parsed JSON value, as returned by response.json(). -/
inductive Json where
  | null
  | str (s : String)
  | num (n : Int)
  | obj (fields : List (String × Json))

/-- Dict lookup data[k] on a JSON object (none when the key is absent or
the value is not an object). -/
def Json.lookupKey : Json → String → Option Json
  | .obj fields, k => (List.find? (fun e => e.1 == k) fields).map (fun e => e.2)
  | _, _ => none

/-- Outcome of the external requests.post to tmpfiles.org: a
requests.RequestException (network failure; a bad HTTP status makes
raise_for_status raise an HTTPError, also a RequestException), a response
whose .json() raises a ValueError, or a response with a status code and a
parsed JSON body. -/
inductive UploadNet where
  | requestError (msg : String)
  | badJson (msg : String)
  | ok (status : Nat) (body : Json)

/-- upload_pdf in main.py: open the file, POST it, raise_for_status,
parse the JSON, check data.url is present, rewrite the URL with
str.replace, delete the local file, return the rewritten URL. Each caught
failure class becomes an HTTPException with the corresponding detail; a
data.url value that is not a string would make .replace raise an
AttributeError, which upload_pdf does not catch. Returns the result
together with the file system after the call. -/
def upload_pdf (fs : FS) (net : UploadNet) (file_path : String) :
    Except PyExc String × FS :=
  match FS.read fs file_path with
  | none => (.error (.http 500 "Error processing generated PDF file"), fs)
  | some _ =>
    match net with
    | .requestError _ => (.error (.http 500 "Failed to upload generated PDF"), fs)
    | .badJson _ => (.error (.http 500 "Invalid response from file upload service"), fs)
    | .ok status body =>
      if 400 ≤ status then
        (.error (.http 500 "Failed to upload generated PDF"), fs)
      else
        match Json.lookupKey body "data" with
        | none => (.error (.http 500 "Invalid response from file upload service"), fs)
        | some dataField =>
          match Json.lookupKey dataField "url" with
          | some (.str download_url) =>
            (.ok (pythonReplace download_url "tmpfiles.org/" "tmpfiles.org/dl/"),
             FS.remove fs file_path)
          | some _ =>
            (.error (.other "AttributeError" "replace"), fs)
          | none => (.error (.http 500 "Invalid response from file upload service"), fs)

/-- The pydantic request model DPPify_input in main.py; the Literal
constraints of its fields are the predicates below. -/
structure DPPify_input where
  topic_name : String
  question_type : String
  total_q : Int
  level : String
  dpp_language : String
  additional_instruction : String
deriving DecidableEq, Repr

/-- The Literal constraint on DPPify_input.question_type. -/
def validQuestionType (s : String) : Bool :=
  s == "only MCQ" || s == "only SAQ" || s == "both"

/-- The generate_dpp endpoint handler in main.py: run the pipeline, check
the returned path exists, upload the PDF, return the pdf_url JSON object.
An HTTPException raised by upload_pdf is re-raised as is (no cleanup runs
on that path); any other exception after a path was produced triggers the
best-effort cleanup and is wrapped as an Internal-server-error
HTTPException; a failure of run itself is wrapped the same way, with
pdf_path still None so the cleanup guard is skipped. -/
def generate_dpp (fs : FS) (llm : LLMOutcome) (renderOut : RenderOutcome)
    (net : UploadNet) (api_key : String) (inp : DPPify_input) :
    Except PyExc Json × FS × List Event :=
  match run fs llm renderOut inp.topic_name inp.question_type inp.total_q inp.level api_key inp.dpp_language inp.additional_instruction with
  | (.error e, fs1, tr) =>
    (.error (.http 500 ("Internal server error: " ++ PyExc.str e)), fs1, tr)
  | (.ok pdf_path, fs1, tr) =>
    if pdf_path == "" || !(FS.pathExists fs1 pdf_path) then
      (.error (.http 500 "DPP generation failed or produced no file."), fs1, tr)
    else
      match upload_pdf fs1 net pdf_path with
      | (.ok pdf_url, fs2) => (.ok (.obj [("pdf_url", .str pdf_url)]), fs2, tr)
      | (.error (.http s d), fs2) => (.error (.http s d), fs2, tr)
      | (.error e, fs2) =>
        let fs3 := if FS.pathExists fs2 pdf_path then FS.remove fs2 pdf_path else fs2
        (.error (.http 500 ("Internal server error: " ++ PyExc.str e)), fs3, tr)

/-! Concrete fixtures used by witness theorems. -/

/-- A file system holding the three prompt templates. -/
def fsAll : FS :=
  [(only_mcq_prompt_path, "MCQ PROMPT"),
   (only_saq_prompt_path, "SAQ PROMPT"),
   (both_prompt_path, "BOTH PROMPT")]

/-- A generation response with two questions. -/
def respTwo : DPP :=
  { topic := "Algebra"
  , language := "English"
  , instructions := "Solve all questions."
  , questions := [{ text := "Q1" }, { text := "Q2" }] }

/-- An endpoint request body that passes the pydantic validation. -/
def inpBoth : DPPify_input :=
  { topic_name := "Algebra"
  , question_type := "both"
  , total_q := 5
  , level := "Medium"
  , dpp_language := "English"
  , additional_instruction := "" }

/-! Helper lemmas. -/

/-- After removing a path, reading it yields nothing. -/
theorem FS.read_remove (fs : FS) (p : String) :
    FS.read (FS.remove fs p) p = none := by
  induction fs with
  | nil => rfl
  | cons e t ih =>
    by_cases h : e.1 = p
    · simpa [FS.remove, h] using ih
    · simpa [FS.remove, FS.read, h] using ih

/-- Every path stored in PROMPT_MAP is one of the three template paths. -/
theorem lookup_PROMPT_MAP (k p : String)
    (h : PROMPT_MAP.lookup k = some p) :
    p = only_mcq_prompt_path ∨ p = only_saq_prompt_path ∨ p = both_prompt_path := by
  by_cases h1 : k = "onlymcq"
  · subst h1
    simp [PROMPT_MAP, List.lookup] at h
    exact Or.inl h.symm
  · by_cases h2 : k = "onlysaq"
    · subst h2
      simp [PROMPT_MAP, List.lookup] at h
      exact Or.inr (Or.inl h.symm)
    · by_cases h3 : k = "both"
      · subst h3
        simp [PROMPT_MAP, List.lookup] at h
        exact Or.inr (Or.inr h.symm)
      · simp only [PROMPT_MAP, List.lookup] at h
        rw [show (k == "onlymcq") = false from beq_eq_false_iff_ne.mpr h1,
            show (k == "onlysaq") = false from beq_eq_false_iff_ne.mpr h2,
            show (k == "both") = false from beq_eq_false_iff_ne.mpr h3] at h
        simp at h

/-- The trace of the metadata step is empty (prompt file missing) or a
single network call. -/
theorem metadata_trace_cases (fs : FS) (llm : LLMOutcome) (topic_name : String)
    (total_questions : Int)
    (question_type difficulty_level api_key language additional_instruction : String) :
    (_generate_dpp_metadata fs llm topic_name total_questions question_type
        difficulty_level api_key language additional_instruction).2 = [] ∨
    (_generate_dpp_metadata fs llm topic_name total_questions question_type
        difficulty_level api_key language additional_instruction).2 = [Event.networkCall] := by
  cases h : _get_system_prompt fs question_type with
  | error e => simp [_generate_dpp_metadata, h]
  | ok p =>
    cases llm with
    | err e => simp [_generate_dpp_metadata, h]
    | ok o =>
      cases o with
      | none => simp [_generate_dpp_metadata, h]
      | some r =>
        by_cases hq : r.questions.isEmpty <;>
          simp [_generate_dpp_metadata, h, hq]

/-! Claim theorems. -/

/-- C3: for every question-type label, the prompt selector (which
lowercases the label and removes its spaces) returns the content of
exactly one of the three known template files, and every label whose
normalization is not a key of PROMPT_MAP gets the both template. -/
theorem C3_prompt_selector_three_templates (fs : FS) (label cm cs cb : String)
    (hm : FS.read fs only_mcq_prompt_path = some cm)
    (hs : FS.read fs only_saq_prompt_path = some cs)
    (hb : FS.read fs both_prompt_path = some cb) :
    (_get_system_prompt fs label = .ok cm ∨ _get_system_prompt fs label = .ok cs ∨
      _get_system_prompt fs label = .ok cb) ∧
    (PROMPT_MAP.lookup (normalized_q_type label) = none →
      _get_system_prompt fs label = .ok cb) := by
  constructor
  · cases hcase : PROMPT_MAP.lookup (normalized_q_type label) with
    | none =>
      right; right
      simp [_get_system_prompt, selected_prompt_path, hcase, hb]
    | some p =>
      rcases lookup_PROMPT_MAP _ _ hcase with h1 | h1 | h1 <;> subst h1
      · left
        simp [_get_system_prompt, selected_prompt_path, hcase, hm]
      · right; left
        simp [_get_system_prompt, selected_prompt_path, hcase, hs]
      · right; right
        simp [_get_system_prompt, selected_prompt_path, hcase, hb]
  · intro h
    simp [_get_system_prompt, selected_prompt_path, h, hb]

/-- Witness for C3 at a concrete input: a case and space variation of the
MCQ label, against a file system holding the three templates. -/
theorem C3_witness :
    _get_system_prompt fsAll "Only MCQ" = .ok "MCQ PROMPT" ∨
    _get_system_prompt fsAll "Only MCQ" = .ok "SAQ PROMPT" ∨
    _get_system_prompt fsAll "Only MCQ" = .ok "BOTH PROMPT" :=
  (C3_prompt_selector_three_templates fsAll "Only MCQ" "MCQ PROMPT" "SAQ PROMPT"
    "BOTH PROMPT" (by rfl) (by rfl) (by rfl)).1

/-- C10: every question_type accepted by the endpoint validation (the
Literal constraint of DPPify_input) normalizes to a key that is present
in PROMPT_MAP, so the both-default branch of the selector is unreachable
for endpoint-validated input. -/
theorem C10_validated_input_hits_prompt_map (s : String)
    (h : validQuestionType s = true) :
    (PROMPT_MAP.lookup (normalized_q_type s)).isSome = true := by
  simp only [validQuestionType, Bool.or_eq_true, beq_iff_eq] at h
  rcases h with (h | h) | h <;> subst h <;> decide

/-- Witness for C10 at the concrete label with a space and upper case. -/
theorem C10_witness :
    validQuestionType "only MCQ" = true ∧
    (PROMPT_MAP.lookup (normalized_q_type "only MCQ")).isSome = true :=
  ⟨by decide, C10_validated_input_hits_prompt_map "only MCQ" (by decide)⟩

/-- C6: every failure of the LLM generation call is raised as a
ConnectionError whose message carries the message of the underlying
exception. -/
theorem C6_llm_failure_becomes_connection_error
    (fs : FS) (e : PyExc) (topic_name : String) (total_questions : Int)
    (question_type difficulty_level api_key language additional_instruction prompt : String)
    (hp : _get_system_prompt fs question_type = .ok prompt) :
    (_generate_dpp_metadata fs (.err e) topic_name total_questions question_type
        difficulty_level api_key language additional_instruction).1 =
      .error (.connection
        ("Failed to get a response from the AI model. Please check your API key and network connection. Details: "
          ++ PyExc.str e)) := by
  simp [_generate_dpp_metadata, hp]

/-- Witness for C6: a concrete transport failure. -/
theorem C6_witness :
    (_generate_dpp_metadata fsAll (.err (.other "APIError" "rate limited"))
        "Algebra" 5 "both" "Medium" "key" "English" "").1 =
      .error (.connection
        ("Failed to get a response from the AI model. Please check your API key and network connection. Details: "
          ++ PyExc.str (.other "APIError" "rate limited"))) :=
  C6_llm_failure_becomes_connection_error fsAll (.other "APIError" "rate limited")
    "Algebra" 5 "both" "Medium" "key" "English" "" "BOTH PROMPT" (by rfl)

/-- C2: a generation response holding at least one question always
reaches the render stage, for every requested total_q, matching or not;
the trace is exactly one network call followed by one render call and no
count comparison can intervene. -/
theorem C2_nonempty_response_reaches_render
    (fs : FS) (renderOut : RenderOutcome) (response : DPP)
    (topic_name question_type : String) (total_q : Int)
    (level api_key dpp_language additional_instruction prompt : String)
    (hp : _get_system_prompt fs question_type = .ok prompt)
    (hq : response.questions ≠ []) :
    (run fs (.ok (some response)) renderOut topic_name question_type total_q
        level api_key dpp_language additional_instruction).2.2 =
      [Event.networkCall,
       Event.renderCall response.topic (response.questions.map Question.text)
         response.instructions total_q] := by
  have hq2 : response.questions.isEmpty = false := by
    simpa [List.isEmpty_iff] using hq
  cases renderOut with
  | err e => simp [run, _generate_dpp_metadata, hp, hq2]
  | ok path content => simp [run, _generate_dpp_metadata, hp, hq2]

/-- Witness for C2: two questions returned while five were requested; the
render stage is still reached. -/
theorem C2_witness :
    (run fsAll (.ok (some respTwo)) (.ok "dpp.pdf" "PDFBYTES") "Algebra" "both" 5
        "Medium" "key" "English" "").2.2 =
      [Event.networkCall,
       Event.renderCall respTwo.topic (respTwo.questions.map Question.text)
         respTwo.instructions 5] :=
  C2_nonempty_response_reaches_render fsAll (.ok "dpp.pdf" "PDFBYTES") respTwo
    "Algebra" "both" 5 "Medium" "key" "English" "" "BOTH PROMPT" (by rfl) (by decide)

/-- C4: a null generation response or an empty question list fails the
pipeline with the ValueError, and the render stage is never reached (the
trace holds the network call only). -/
theorem C4_empty_response_fails_with_value_error
    (fs : FS) (renderOut : RenderOutcome) (llm : LLMOutcome)
    (topic_name question_type : String) (total_q : Int)
    (level api_key dpp_language additional_instruction prompt : String)
    (hp : _get_system_prompt fs question_type = .ok prompt)
    (hllm : llm = .ok none ∨
      ∃ response, llm = .ok (some response) ∧ response.questions = []) :
    (run fs llm renderOut topic_name question_type total_q level api_key
        dpp_language additional_instruction).1 =
      .error (.value "The AI model failed to generate questions. Please try again with a different topic or settings.") ∧
    (run fs llm renderOut topic_name question_type total_q level api_key
        dpp_language additional_instruction).2.2 = [Event.networkCall] := by
  rcases hllm with h | ⟨response, h, hq⟩ <;> subst h
  · constructor <;> simp [run, _generate_dpp_metadata, hp, runTranslate]
  · have hq2 : response.questions.isEmpty = true := by
      simp [List.isEmpty_iff, hq]
    constructor <;> simp [run, _generate_dpp_metadata, hp, hq2, runTranslate]

/-- Witness for C4: a None response. -/
theorem C4_witness :
    (run fsAll (.ok none) (.ok "dpp.pdf" "PDFBYTES") "Algebra" "both" 5 "Medium"
        "key" "English" "").1 =
      .error (.value "The AI model failed to generate questions. Please try again with a different topic or settings.") ∧
    (run fsAll (.ok none) (.ok "dpp.pdf" "PDFBYTES") "Algebra" "both" 5 "Medium"
        "key" "English" "").2.2 = [Event.networkCall] :=
  C4_empty_response_fails_with_value_error fsAll (.ok "dpp.pdf" "PDFBYTES")
    (.ok none) "Algebra" "both" 5 "Medium" "key" "English" "" "BOTH PROMPT"
    (by rfl) (Or.inl rfl)

/-- C5: a failure inside run that is a FileNotFoundError, ConnectionError
or ValueError propagates unchanged; any other exception is re-raised as a
RuntimeError carrying the original message. (The render stage is the one
place an arbitrary exception class can arise, so it carries the oracle.) -/
theorem C5_run_error_translation
    (fs : FS) (response : DPP) (e : PyExc)
    (topic_name question_type : String) (total_q : Int)
    (level api_key dpp_language additional_instruction prompt : String)
    (hp : _get_system_prompt fs question_type = .ok prompt)
    (hq : response.questions ≠ []) :
    ((∃ m, e = .fileNotFound m ∨ e = .connection m ∨ e = .value m) →
      (run fs (.ok (some response)) (.err e) topic_name question_type total_q
          level api_key dpp_language additional_instruction).1 = .error e) ∧
    ((∀ m, e ≠ .fileNotFound m ∧ e ≠ .connection m ∧ e ≠ .value m) →
      (run fs (.ok (some response)) (.err e) topic_name question_type total_q
          level api_key dpp_language additional_instruction).1 =
        .error (.runtime ("An unexpected error occurred: " ++ PyExc.str e))) := by
  have hq2 : response.questions.isEmpty = false := by
    simpa [List.isEmpty_iff] using hq
  constructor
  · rintro ⟨m, hm | hm | hm⟩ <;> subst hm <;>
      simp [run, _generate_dpp_metadata, hp, hq2, runTranslate]
  · intro hother
    cases e with
    | fileNotFound m => exact absurd rfl (hother m).1
    | connection m => exact absurd rfl (hother m).2.1
    | value m => exact absurd rfl (hother m).2.2
    | runtime m => simp [run, _generate_dpp_metadata, hp, hq2, runTranslate, PyExc.str]
    | http s d => simp [run, _generate_dpp_metadata, hp, hq2, runTranslate, PyExc.str]
    | other c m => simp [run, _generate_dpp_metadata, hp, hq2, runTranslate, PyExc.str]

/-- Witness for C5: a TypeError from the renderer is wrapped in a
RuntimeError carrying its message. -/
theorem C5_witness :
    (run fsAll (.ok (some respTwo)) (.err (.other "TypeError" "bad font"))
        "Algebra" "both" 5 "Medium" "key" "English" "").1 =
      .error (.runtime ("An unexpected error occurred: " ++
        PyExc.str (.other "TypeError" "bad font"))) :=
  (C5_run_error_translation fsAll respTwo (.other "TypeError" "bad font")
      "Algebra" "both" 5 "Medium" "key" "English" "" "BOTH PROMPT"
      (by rfl) (by decide)).2
    (fun m => ⟨by simp, by simp, by simp⟩)

/-- C9: every render call in the trace of run carries the
caller-requested total_q as its count argument, whatever the length of
the extracted question list. -/
theorem C9_render_receives_requested_total
    (fs : FS) (llm : LLMOutcome) (renderOut : RenderOutcome)
    (topic_name question_type : String) (total_q : Int)
    (level api_key dpp_language additional_instruction : String)
    (t instr : String) (qs : List String) (n : Int)
    (hmem : Event.renderCall t qs instr n ∈
      (run fs llm renderOut topic_name question_type total_q level api_key
        dpp_language additional_instruction).2.2) :
    n = total_q := by
  have htr := metadata_trace_cases fs llm topic_name total_q question_type
    level api_key dpp_language additional_instruction
  simp only [run] at hmem
  cases hgen : (_generate_dpp_metadata fs llm topic_name total_q question_type
      level api_key dpp_language additional_instruction).1 with
  | error e =>
    rw [hgen] at hmem
    rcases htr with htr | htr <;> rw [htr] at hmem <;> simp at hmem
  | ok md =>
    rw [hgen] at hmem
    rcases htr with htr | htr <;> rw [htr] at hmem <;>
      cases renderOut <;> simp at hmem <;> exact hmem.2.2.2

/-- Witness for C9: seven requested, two questions extracted, the render
call still carries seven. -/
theorem C9_witness :
    Event.renderCall "Algebra" ["Q1", "Q2"] "Solve all questions." 7 ∈
      (run fsAll (.ok (some respTwo)) (.ok "dpp.pdf" "PDFBYTES") "Algebra"
        "both" 7 "Medium" "key" "English" "").2.2 ∧
    (7 : Int) = 7 :=
  ⟨by decide,
   C9_render_receives_requested_total fsAll (.ok (some respTwo))
     (.ok "dpp.pdf" "PDFBYTES") "Algebra" "both" 7 "Medium" "key" "English" ""
     "Algebra" "Solve all questions." ["Q1", "Q2"] 7 (by decide)⟩

/-- C8: when the selected template file is missing, the endpoint fails
with an error whose message cites the path, and the trace is empty: no
LLM network call was attempted. -/
theorem C8_missing_template_fails_before_network
    (fs : FS) (llm : LLMOutcome) (renderOut : RenderOutcome) (net : UploadNet)
    (api_key : String) (inp : DPPify_input)
    (hmiss : FS.read fs (selected_prompt_path inp.question_type) = none) :
    (generate_dpp fs llm renderOut net api_key inp).1 =
      .error (.http 500 ("Internal server error: " ++
        ("Could not find the required prompt file: " ++
          selected_prompt_path inp.question_type))) ∧
    (generate_dpp fs llm renderOut net api_key inp).2.2 = [] := by
  have hg : _get_system_prompt fs inp.question_type =
      .error (.fileNotFound ("Could not find the required prompt file: " ++
        selected_prompt_path inp.question_type)) := by
    simp [_get_system_prompt, hmiss]
  constructor <;>
    simp [generate_dpp, run, _generate_dpp_metadata, hg, runTranslate, PyExc.str]

/-- Witness for C8 on an empty file system. -/
theorem C8_witness :
    (generate_dpp [] (.ok (some respTwo)) (.ok "dpp.pdf" "PDFBYTES")
        (.requestError "down") "key" inpBoth).1 =
      .error (.http 500 ("Internal server error: " ++
        ("Could not find the required prompt file: " ++
          selected_prompt_path inpBoth.question_type))) ∧
    (generate_dpp [] (.ok (some respTwo)) (.ok "dpp.pdf" "PDFBYTES")
        (.requestError "down") "key" inpBoth).2.2 = [] :=
  C8_missing_template_fails_before_network [] (.ok (some respTwo))
    (.ok "dpp.pdf" "PDFBYTES") (.requestError "down") "key" inpBoth (by rfl)

/-- C7: a successful upload whose JSON body carries a data.url string
returns that URL with every occurrence of the host segment rewritten by
the direct-download replacement, and removes the local file. -/
theorem C7_successful_upload_rewrites_every_occurrence
    (fs : FS) (file_path content : String) (status : Nat)
    (body dataField : Json) (u : String)
    (hf : FS.read fs file_path = some content)
    (hst : status < 400)
    (hd : Json.lookupKey body "data" = some dataField)
    (hu : Json.lookupKey dataField "url" = some (.str u)) :
    upload_pdf fs (.ok status body) file_path =
      (.ok (pythonReplace u "tmpfiles.org/" "tmpfiles.org/dl/"),
       FS.remove fs file_path) := by
  simp [upload_pdf, hf, hd, hu, Nat.not_le.mpr hst]

/-- Witness for C7 on a URL holding two occurrences of the host segment:
both are rewritten. -/
theorem C7_witness :
    upload_pdf [("dpp.pdf", "PDFBYTES")]
      (.ok 200 (.obj [("data",
        .obj [("url", .str "https://tmpfiles.org/123/a.pdf?mirror=tmpfiles.org/456")])]))
      "dpp.pdf" =
      (.ok "https://tmpfiles.org/dl/123/a.pdf?mirror=tmpfiles.org/dl/456", []) := by
  have h := C7_successful_upload_rewrites_every_occurrence
    [("dpp.pdf", "PDFBYTES")] "dpp.pdf" "PDFBYTES" 200
    (.obj [("data",
      .obj [("url", .str "https://tmpfiles.org/123/a.pdf?mirror=tmpfiles.org/456")])])
    (.obj [("url", .str "https://tmpfiles.org/123/a.pdf?mirror=tmpfiles.org/456")])
    "https://tmpfiles.org/123/a.pdf?mirror=tmpfiles.org/456"
    (by rfl) (by decide) (by rfl) (by rfl)
  exact h.trans (by rfl)

/-- Every call of upload_pdf either fails and leaves the file system
unchanged, or succeeds and removes the uploaded file. -/
theorem upload_pdf_cases (fs : FS) (net : UploadNet) (p : String) :
    ((∃ e, (upload_pdf fs net p).1 = .error e) ∧ (upload_pdf fs net p).2 = fs) ∨
    ((∃ u, (upload_pdf fs net p).1 = .ok u) ∧
      (upload_pdf fs net p).2 = FS.remove fs p) := by
  unfold upload_pdf
  repeat' split
  all_goals
    first
      | exact Or.inl ⟨⟨_, rfl⟩, rfl⟩
      | exact Or.inr ⟨⟨_, rfl⟩, rfl⟩

/-- C1 as stated is false on the code: an upload attempt on a valid
(existing) local PDF file can complete with a failure while the file
still exists. In this end-to-end endpoint execution, the PDF was
rendered, the upload POST fails with a network error, upload_pdf raises
an HTTPException without deleting the file, and generate_dpp re-raises
it without cleanup, so the final file system still holds the file. -/
theorem C1_counterexample :
    FS.read (generate_dpp fsAll (.ok (some respTwo)) (.ok "dpp.pdf" "PDFBYTES")
        (.requestError "connection reset") "key" inpBoth).2.1 "dpp.pdf" =
      some "PDFBYTES" ∧
    (generate_dpp fsAll (.ok (some respTwo)) (.ok "dpp.pdf" "PDFBYTES")
        (.requestError "connection reset") "key" inpBoth).1 =
      .error (.http 500 "Failed to upload generated PDF") := by
  constructor <;> rfl

/-- C1 amended: after a successful upload the local file no longer
exists; after a failed upload attempt the file system is unchanged, so a
file that existed before the attempt still exists (only the success path
of upload_pdf deletes the file). -/
theorem C1_amended_deleted_only_on_success
    (fs : FS) (net : UploadNet) (file_path : String) :
    (∀ u, (upload_pdf fs net file_path).1 = .ok u →
      FS.read (upload_pdf fs net file_path).2 file_path = none) ∧
    (∀ e, (upload_pdf fs net file_path).1 = .error e →
      (upload_pdf fs net file_path).2 = fs) := by
  rcases upload_pdf_cases fs net file_path with ⟨⟨e, he⟩, hfs⟩ | ⟨⟨u, hu⟩, hfs⟩
  · constructor
    · intro u hu
      rw [he] at hu
      simp at hu
    · intro e2 _
      exact hfs
  · constructor
    · intro u2 _
      rw [hfs]
      exact FS.read_remove fs file_path
    · intro e2 he2
      rw [hu] at he2
      simp at he2

/-- Witness for the amended C1: a successful upload removes the file. -/
theorem C1_amended_witness :
    FS.read (upload_pdf [("dpp.pdf", "PDFBYTES")]
        (.ok 200 (.obj [("data", .obj [("url", .str "https://tmpfiles.org/9/f.pdf")])]))
        "dpp.pdf").2 "dpp.pdf" = none :=
  (C1_amended_deleted_only_on_success [("dpp.pdf", "PDFBYTES")]
      (.ok 200 (.obj [("data", .obj [("url", .str "https://tmpfiles.org/9/f.pdf")])]))
      "dpp.pdf").1 "https://tmpfiles.org/dl/9/f.pdf" (by rfl)

end DPPify
